import Mathlib

/-!
Verification of the WhatsApp session-lifecycle state machine and the
batched bulk-dispatch loops of the Primecoz backend server.

The server keeps the session in module-level variables
(`qrCodeData`, `sessionPhone`, `sessionInfo`, `isInitializing`,
`reconnectAttempts`, `qrGeneratedTime`, `clientState`,
`initializationTimeout`, `client`); we collect them in a `WAState`
record.  Each `client.on(...)` handler, the `startClient` function, the
initialization-timeout callback, the periodic QR-expiry sweep and the
HTTP handlers become functions on `WAState`.  Scheduled side effects
(constructing a client, scheduling a retry, attempting a destroy) are
returned as booleans alongside the state.

JS truthiness notes: `qrCodeData` / `qrGeneratedTime` / `sessionInfo` /
`client` are either `null` or a nonempty string / positive epoch
timestamp / object, so their truthiness tests are modelled as
`Option.isSome`; `contact.phone` is arbitrary user input, so its
truthiness test is modelled explicitly as a comparison with `""`.
Timestamps are `Int` (JS number arithmetic on `Date.now()` values).
-/

namespace Primecoz

/-- The values the module-level `clientState` string variable takes. -/
inductive ClientState where
  | initializing
  | qr
  | authenticated
  | ready
  | disconnected
  | authFailure
  | error
deriving DecidableEq, Repr

/-- The module-level WhatsApp session variables (source lines 402-414).
`initializationTimeout` records whether the watchdog timer is pending;
`clientExists` records whether the `client` variable is set. -/
structure WAState where
  qrCodeData : Option String
  sessionPhone : Option String
  sessionInfo : Option String
  isInitializing : Bool
  reconnectAttempts : Nat
  qrGeneratedTime : Option Int
  clientState : ClientState
  initializationTimeout : Bool
  clientExists : Bool
  sessionRestoredOnce : Bool
deriving DecidableEq, Repr

def MAX_RECONNECT_ATTEMPTS : Nat := 5

def QR_TIMEOUT : Int := 60000

/-- Initial values of the module-level variables (lines 402-414); the
`clientState` string starts as `'initializing'`. -/
def initialState : WAState where
  qrCodeData := none
  sessionPhone := none
  sessionInfo := none
  isInitializing := false
  reconnectAttempts := 0
  qrGeneratedTime := none
  clientState := ClientState.initializing
  initializationTimeout := false
  clientExists := false
  sessionRestoredOnce := false

/-- `clearTimeout(initializationTimeout)` as done at the top of every
event handler. -/
def cancelWatchdog (s : WAState) : WAState :=
  { s with initializationTimeout := false }

/-- `client.on('qr')` handler (lines 507-526): store the payload and its
generation time, clear the identity, reset the retry counter. -/
def onQr (payload : String) (now : Int) (s : WAState) : WAState :=
  let s := cancelWatchdog s
  { s with
    qrCodeData := some payload
    qrGeneratedTime := some now
    sessionPhone := none
    sessionInfo := none
    reconnectAttempts := 0
    clientState := ClientState.qr
    isInitializing := false }

/-- `client.on('authenticated')` handler (lines 528-537): only the state
string changes; the QR payload is deliberately left in place. -/
def onAuthenticated (s : WAState) : WAState :=
  let s := cancelWatchdog s
  { s with clientState := ClientState.authenticated }

/-- `client.on('ready')` handler (lines 539-564).  `info` is the result
of awaiting `client.info`: `some user` carries `info.wid.user`, `none`
models the retrieval throwing (the catch branch). -/
def onReady (info : Option String) (s : WAState) : WAState :=
  let s := cancelWatchdog s
  match info with
  | some user =>
      { s with
        sessionPhone := some user
        sessionInfo := some user
        reconnectAttempts := 0
        isInitializing := false
        clientState := ClientState.ready
        qrCodeData := none
        qrGeneratedTime := none
        sessionRestoredOnce := false }
  | none =>
      { s with
        isInitializing := false
        clientState := ClientState.error }

/-- `client.on('disconnected')` handler (lines 566-590).  The returned
boolean records whether a `startClient` retry was scheduled (the
`setTimeout(startClient, 5000)` call). -/
def onDisconnected (reason : String) (s : WAState) : WAState × Bool :=
  let s := cancelWatchdog s
  let s := { s with
    qrCodeData := none
    qrGeneratedTime := none
    sessionPhone := none
    sessionInfo := none
    isInitializing := false
    clientState := ClientState.disconnected }
  if reason ≠ "NAVIGATION" ∧ s.reconnectAttempts < MAX_RECONNECT_ATTEMPTS then
    ({ s with reconnectAttempts := s.reconnectAttempts + 1 }, true)
  else
    (s, false)

/-- `client.on('auth_failure')` handler (lines 593-607). -/
def onAuthFailure (s : WAState) : WAState :=
  let s := cancelWatchdog s
  { s with
    isInitializing := false
    clientState := ClientState.authFailure
    qrCodeData := none
    qrGeneratedTime := none
    sessionPhone := none
    sessionInfo := none }

/-- `client.on('error')` handler (lines 613-622): only the state string
and the initializing flag change; identity and QR fields are untouched. -/
def onError (s : WAState) : WAState :=
  let s := cancelWatchdog s
  { s with
    isInitializing := false
    clientState := ClientState.error }

/-- `client.initialize().catch(...)` handler (lines 625-633). -/
def onInitializeFailed (s : WAState) : WAState :=
  let s := cancelWatchdog s
  { s with
    isInitializing := false
    clientState := ClientState.error }

/-- `startClient` (lines 449-463, 484-505): bail out while a previous
initialization is in flight, otherwise enter `initializing`, schedule the
watchdog and construct a new client.  The boolean reports whether a new
client object was constructed. -/
def startClient (s : WAState) : WAState × Bool :=
  if s.isInitializing then
    (s, false)
  else
    let s :=
      if s.clientState = ClientState.initializing ∧ s.isInitializing = false then
        { s with clientState := ClientState.disconnected }
      else
        s
    ({ s with
        isInitializing := true
        clientState := ClientState.initializing
        initializationTimeout := true
        clientExists := true }, true)

/-- Outcome of the initialization-timeout callback firing. -/
structure FireResult where
  state : WAState
  destroyAttempted : Bool
  retryScheduled : Bool
deriving DecidableEq, Repr

/-- Body of the watchdog callback scheduled by `startClient`
(lines 466-484): if still `initializing`, mark the error, best-effort
destroy the client (errors swallowed) and schedule a restart after 5s;
otherwise do nothing. -/
def initTimeoutFire (s : WAState) : FireResult :=
  if s.clientState = ClientState.initializing then
    { state := { s with isInitializing := false, clientState := ClientState.error }
      destroyAttempted := s.clientExists
      retryScheduled := true }
  else
    { state := s, destroyAttempted := false, retryScheduled := false }

/-- Body of the periodic QR-expiry interval (lines 646-652). -/
def qrSweep (now : Int) (s : WAState) : WAState :=
  match s.qrCodeData, s.qrGeneratedTime with
  | some _, some t =>
      if now - t > QR_TIMEOUT then
        { s with qrCodeData := none, qrGeneratedTime := none }
      else
        s
  | _, _ => s

/-- Responses of `GET /api/whatsapp/qr` (lines 1004-1045). -/
inductive QrApiResponse where
  | qrImage (payload : String)
  | expired
  | alreadyReady
  | initializing
  | reconnecting
  | notAvailable
deriving DecidableEq, Repr

/-- `GET /api/whatsapp/qr` handler (lines 1004-1045): serve the QR with a
lazy expiry check, report ready/initializing, or restart a failed client. -/
def getWhatsappQr (now : Int) (s : WAState) : WAState × QrApiResponse :=
  if s.clientState = ClientState.qr ∧ s.qrCodeData.isSome then
    match s.qrCodeData, s.qrGeneratedTime with
    | some q, some t =>
        if now - t > QR_TIMEOUT then
          ({ s with qrCodeData := none, qrGeneratedTime := none }, QrApiResponse.expired)
        else
          (s, QrApiResponse.qrImage q)
    | some q, none => (s, QrApiResponse.qrImage q)
    | none, _ => (s, QrApiResponse.notAvailable)
  else if s.clientState = ClientState.ready then
    (s, QrApiResponse.alreadyReady)
  else if s.clientState = ClientState.initializing ∨ s.isInitializing then
    (s, QrApiResponse.initializing)
  else if (s.clientState = ClientState.disconnected ∨ s.clientState = ClientState.authFailure
      ∨ s.clientState = ClientState.error) ∧ s.isInitializing = false then
    ((startClient s).1, QrApiResponse.reconnecting)
  else
    (s, QrApiResponse.notAvailable)

/-- `POST /api/whatsapp/qr` force-reset handler, state part
(lines 1048-1092): best-effort logout/destroy, clear all fields, cancel
the watchdog, restart. -/
def forceQrReset (s : WAState) : WAState :=
  let s := { s with
    qrCodeData := none
    qrGeneratedTime := none
    sessionPhone := none
    sessionInfo := none
    isInitializing := false
    clientState := ClientState.initializing }
  let s := cancelWatchdog s
  (startClient s).1

/-- Events driving the session state machine: the five client events,
the initialize rejection, the timers and the HTTP handlers that mutate
the session variables. -/
inductive Event where
  | start
  | qrEvent (payload : String) (now : Int)
  | authenticated
  | ready (info : Option String)
  | disconnected (reason : String)
  | authFailure
  | errorEvent
  | initializeFailed
  | timeoutFired
  | sweep (now : Int)
  | qrRequest (now : Int)
  | forceReset
deriving DecidableEq, Repr

/-- One transition of the session variables. -/
def step (s : WAState) : Event → WAState
  | Event.start => (startClient s).1
  | Event.qrEvent payload now => onQr payload now s
  | Event.authenticated => onAuthenticated s
  | Event.ready info => onReady info s
  | Event.disconnected reason => (onDisconnected reason s).1
  | Event.authFailure => onAuthFailure s
  | Event.errorEvent => onError s
  | Event.initializeFailed => onInitializeFailed s
  | Event.timeoutFired => (initTimeoutFire s).state
  | Event.sweep now => qrSweep now s
  | Event.qrRequest now => (getWhatsappQr now s).1
  | Event.forceReset => forceQrReset s

/-- Run a sequence of events from a state. -/
def run (s : WAState) (es : List Event) : WAState :=
  es.foldl step s

/-! ## Email bulk dispatch (lines 728-760 and 895-913)

`sendEmails` iterates the recipient list, pushing one result per
recipient; the transporter is modelled as a function returning either a
`messageId` or an error message.  `sendEmailsInBatches` slices the list
into contiguous `batchSize` slices and waits `delayMs` only when another
batch follows; the returned `Nat` counts the delay waits.  The loop
`for (let i = 0; i < emails.length; i += batchSize)` advances by
`batchSize ≥ 1` elements per iteration, so it performs at most
`emails.length` iterations; the recursion below uses that bound as a
structural counter and `sendEmailsInBatches_cons` proves the resulting
function satisfies exactly the loop's recurrence. -/

/-- An element of the `emails` array: the loop body only reads `.email`. -/
structure EmailData where
  email : String
deriving DecidableEq, Repr

inductive EmailStatus where
  | success
  | failed
deriving DecidableEq, Repr

/-- One element pushed onto `results`: `info` is the `messageId` on
success and the caught `error.message` on failure. -/
structure EmailResult where
  email : String
  status : EmailStatus
  info : String
deriving DecidableEq, Repr

/-- The body of one `sendEmails` loop iteration (lines 732-756): try the
transporter, catch a failure into a `failed` result. -/
def sendOneEmail (transport : String → Except String String) (e : EmailData) : EmailResult :=
  match transport e.email with
  | Except.ok mid => { email := e.email, status := EmailStatus.success, info := mid }
  | Except.error msg => { email := e.email, status := EmailStatus.failed, info := msg }

/-- The `sendEmails` loop with its `results` accumulator (lines 728-760). -/
def sendEmailsLoop (transport : String → Except String String) :
    List EmailData → List EmailResult → List EmailResult
  | [], results => results
  | e :: rest, results => sendEmailsLoop transport rest (results ++ [sendOneEmail transport e])

/-- `sendEmails` (lines 728-760): sequential per-recipient loop starting
from an empty `results` array. -/
def sendEmails (transport : String → Except String String) (emails : List EmailData) :
    List EmailResult :=
  sendEmailsLoop transport emails []

/-- Iterations of the `sendEmailsInBatches` loop, counted by a bound on
the number of remaining iterations (the loop index advances by
`batchSize ≥ 1`, so `emails.length` iterations suffice). -/
def sendBatchesIter (transport : String → Except String String) (batchSize : Nat) :
    Nat → List EmailData → List EmailResult × Nat
  | 0, _ => ([], 0)
  | _ + 1, [] => ([], 0)
  | fuel + 1, e :: rest =>
      let emails := e :: rest
      let batchResults := sendEmails transport (emails.take batchSize)
      let next := sendBatchesIter transport batchSize fuel (emails.drop batchSize)
      (batchResults ++ next.1, (if batchSize < emails.length then 1 else 0) + next.2)

/-- `sendEmailsInBatches` (lines 895-913): results of all batches in
order, plus the number of inter-batch delay waits (the guarded
`await new Promise(... delayMs)` at line 906-909). -/
def sendEmailsInBatches (transport : String → Except String String) (batchSize : Nat)
    (emails : List EmailData) : List EmailResult × Nat :=
  sendBatchesIter transport batchSize emails.length emails

/-- The contiguous slices `emails.slice(i, i + batchSize)` taken by the
`sendEmailsInBatches` loop, as a list of batches. -/
def batchesIter (batchSize : Nat) : Nat → List EmailData → List (List EmailData)
  | 0, _ => []
  | _ + 1, [] => []
  | fuel + 1, e :: rest =>
      (e :: rest).take batchSize :: batchesIter batchSize fuel ((e :: rest).drop batchSize)

/-- The batch partition produced by the `sendEmailsInBatches` loop. -/
def batchesOf (batchSize : Nat) (emails : List EmailData) : List (List EmailData) :=
  batchesIter batchSize emails.length emails

/-! ## WhatsApp bulk send (`POST /api/whatsapp/send`, lines 1117-1170) -/

/-- An element of the `contacts` array. -/
structure Contact where
  name : Option String
  phone : String
deriving DecidableEq, Repr

/-- One element pushed onto `results` by the per-contact loop. -/
structure ContactResult where
  contact : Contact
  success : Bool
  error : Option String
deriving DecidableEq, Repr

/-- The test `/^\d{10,15}$/.test(contact.phone)` (line 1140). -/
def validPhone (p : String) : Bool :=
  10 ≤ p.length && p.length ≤ 15 && p.toList.all Char.isDigit

/-- `s.startsWith(pre)` over the character lists of the strings. -/
def strStartsWith (s pre : String) : Bool :=
  s.toList.take pre.toList.length = pre.toList

/-- The chat address built at lines 1146-1151: prepend the country code
unless the digits already start with `91`, then append `@c.us`. -/
def chatAddress (phone : String) : String :=
  if ¬ strStartsWith phone "91" then
    "91" ++ phone ++ "@c.us"
  else
    phone ++ "@c.us"

/-- Body of one iteration of the per-contact loop (lines 1139-1159):
reject a missing/malformed phone without sending, otherwise call
`client.sendMessage` on the normalized address, catching errors.  The
second component is the address actually passed to `sendMessage`, if
any. -/
def processContact (send : String → Except String Unit) (c : Contact) :
    ContactResult × Option String :=
  if c.phone = "" ∨ validPhone c.phone = false then
    ({ contact := c, success := false, error := some "Invalid phone number format" }, none)
  else
    let number := chatAddress c.phone
    match send number with
    | Except.ok _ => ({ contact := c, success := true, error := none }, some number)
    | Except.error msg => ({ contact := c, success := false, error := some msg }, some number)

/-- The per-contact loop (lines 1139-1163): one result per contact in
order, plus the list of addresses passed to `sendMessage`. -/
def whatsappSendContacts (send : String → Except String Unit) :
    List Contact → List ContactResult × List String
  | [] => ([], [])
  | c :: rest =>
      let first := processContact send c
      let next := whatsappSendContacts send rest
      (first.1 :: next.1, first.2.toList ++ next.2)

/-- Responses of `POST /api/whatsapp/send`. -/
inductive SendApiResponse where
  | noSession
  | noContacts
  | emptyMessage
  | completed (results : List ContactResult)
deriving DecidableEq, Repr

/-- The check `!message || message.trim() === ''` (line 1130): the
trimmed message is empty exactly when every character is whitespace. -/
def blankMessage (message : String) : Bool :=
  message.toList.all Char.isWhitespace

/-- `POST /api/whatsapp/send` handler (lines 1117-1170): guard on the
client object and `sessionInfo` being present, validate the request,
then run the per-contact loop.  The second component is the list of
addresses passed to `sendMessage`. -/
def postWhatsappSend (send : String → Except String Unit) (s : WAState)
    (contacts : List Contact) (message : String) : SendApiResponse × List String :=
  if s.clientExists = false ∨ s.sessionInfo = none then
    (SendApiResponse.noSession, [])
  else if contacts = [] then
    (SendApiResponse.noContacts, [])
  else if blankMessage message then
    (SendApiResponse.emptyMessage, [])
  else
    let outcome := whatsappSendContacts send contacts
    (SendApiResponse.completed outcome.1, outcome.2)

/-! ## Claims -/

/-- C1 (counterexample): run start → qr → ready → error.  The error
event is a transition away from `Ready`, yet afterwards the state is
`error` while `sessionPhone` and `sessionInfo` are still populated: the
error handler does not clear the session identity. -/
theorem C1_error_event_keeps_identity :
    (run initialState [Event.start, Event.qrEvent "QR1" 5,
      Event.ready (some "9176543210"), Event.errorEvent]).clientState = ClientState.error ∧
    (run initialState [Event.start, Event.qrEvent "QR1" 5,
      Event.ready (some "9176543210"), Event.errorEvent]).sessionPhone = some "9176543210" ∧
    (run initialState [Event.start, Event.qrEvent "QR1" 5,
      Event.ready (some "9176543210"), Event.errorEvent]).sessionInfo = some "9176543210" := by
  decide

/-- C1 (amended): the Ready handler populates the session identity, and
the qr, disconnected and auth_failure handlers clear it to null, but the
error handler leaves `sessionPhone`/`sessionInfo` unchanged, so the
identity can remain non-null after a Ready → Error transition. -/
theorem C1_session_identity_by_handler (s : WAState) (u payload reason : String) (now : Int) :
    ((onReady (some u) s).sessionPhone = some u ∧
      (onReady (some u) s).sessionInfo = some u ∧
      (onReady (some u) s).clientState = ClientState.ready) ∧
    ((onQr payload now s).sessionPhone = none ∧ (onQr payload now s).sessionInfo = none) ∧
    ((onDisconnected reason s).1.sessionPhone = none ∧
      (onDisconnected reason s).1.sessionInfo = none) ∧
    ((onAuthFailure s).sessionPhone = none ∧ (onAuthFailure s).sessionInfo = none) ∧
    ((onError s).sessionPhone = s.sessionPhone ∧ (onError s).sessionInfo = s.sessionInfo) := by
  refine ⟨⟨rfl, rfl, rfl⟩, ⟨rfl, rfl⟩, ⟨?_, ?_⟩, ⟨rfl, rfl⟩, ⟨rfl, rfl⟩⟩ <;>
    · unfold onDisconnected
      dsimp only [cancelWatchdog]
      split <;> rfl

/-- C2 (counterexample): in the state reached by start → qr → ready →
error, the lifecycle does not report `Ready`, yet the bulk-send request
is not rejected and a per-recipient send is attempted: the guard only
checks `client` and `sessionInfo`, which the error handler left
populated. -/
theorem C2_send_accepted_in_error_state :
    (run initialState [Event.start, Event.qrEvent "QR1" 5,
      Event.ready (some "9176543210"), Event.errorEvent]).clientState ≠ ClientState.ready ∧
    postWhatsappSend (fun _ => Except.ok ())
      (run initialState [Event.start, Event.qrEvent "QR1" 5,
        Event.ready (some "9176543210"), Event.errorEvent])
      [{ name := some "A", phone := "9876543210" }] "hello" =
      (SendApiResponse.completed
        [{ contact := { name := some "A", phone := "9876543210" },
           success := true, error := none }],
       ["919876543210@c.us"]) := by
  decide

/-- C2 (amended): the bulk send rejects with the "no active session"
response exactly when the client object is absent or `sessionInfo` is
null, and in that case no per-recipient send is attempted; the guard
does not examine the lifecycle state itself. -/
theorem C2_no_session_guard (send : String → Except String Unit) (s : WAState)
    (contacts : List Contact) (message : String) :
    ((s.clientExists = false ∨ s.sessionInfo = none) →
      postWhatsappSend send s contacts message = (SendApiResponse.noSession, [])) ∧
    (s.clientExists = true → s.sessionInfo ≠ none →
      (postWhatsappSend send s contacts message).1 ≠ SendApiResponse.noSession) := by
  constructor
  · intro h
    unfold postWhatsappSend
    simp [h]
  · intro h1 h2
    unfold postWhatsappSend
    simp [h1, h2]
    split
    · simp
    · split <;> simp

/-- C2 (witness): the initial state has no `sessionInfo`, so the guard
rejects. -/
theorem C2_no_session_guard_witness :
    postWhatsappSend (fun _ => Except.ok ()) initialState [] "" =
      (SendApiResponse.noSession, []) :=
  (C2_no_session_guard (fun _ => Except.ok ()) initialState [] "").1 (Or.inr rfl)

/-- C3 (counterexample): run start → qr → authenticated.  The
authenticated event leaves `QRPending`, yet afterwards the state is
`authenticated` while `qrCodeData` is still the stored payload: the
authenticated handler deliberately does not clear the QR. -/
theorem C3_authenticated_keeps_qr :
    (run initialState [Event.start, Event.qrEvent "QR1" 5,
      Event.authenticated]).clientState = ClientState.authenticated ∧
    (run initialState [Event.start, Event.qrEvent "QR1" 5,
      Event.authenticated]).qrCodeData = some "QR1" := by
  decide

/-- C3 (amended): the qr handler stores the payload, and the successful
ready, disconnected and auth_failure handlers clear it, but the
authenticated and error handlers leave `qrCodeData` unchanged, so the QR
payload can remain non-null in state `authenticated` (until the expiry
sweep or a later event clears it). -/
theorem C3_qr_payload_by_handler (s : WAState) (u payload reason : String) (now : Int) :
    ((onQr payload now s).qrCodeData = some payload ∧
      (onQr payload now s).qrGeneratedTime = some now ∧
      (onQr payload now s).clientState = ClientState.qr) ∧
    ((onReady (some u) s).qrCodeData = none ∧ (onReady (some u) s).qrGeneratedTime = none) ∧
    ((onDisconnected reason s).1.qrCodeData = none ∧
      (onDisconnected reason s).1.qrGeneratedTime = none) ∧
    ((onAuthFailure s).qrCodeData = none ∧ (onAuthFailure s).qrGeneratedTime = none) ∧
    ((onAuthenticated s).qrCodeData = s.qrCodeData ∧
      (onAuthenticated s).clientState = ClientState.authenticated) ∧
    ((onError s).qrCodeData = s.qrCodeData) := by
  refine ⟨⟨rfl, rfl, rfl⟩, ⟨rfl, rfl⟩, ⟨?_, ?_⟩, ⟨rfl, rfl⟩, ⟨rfl, rfl⟩, rfl⟩ <;>
    · unfold onDisconnected
      dsimp only [cancelWatchdog]
      split <;> rfl

/-- C4 (confirmed): `startClient` called while `isInitializing` is set
returns immediately: the state is unchanged in every field and no new
client object is constructed. -/
theorem C4_start_reentrant_noop (s : WAState) (h : s.isInitializing = true) :
    startClient s = (s, false) := by
  unfold startClient
  simp [h]

/-- C4 (witness): instantiated at a concrete initializing state. -/
theorem C4_start_reentrant_noop_witness :
    startClient { initialState with isInitializing := true } =
      ({ initialState with isInitializing := true }, false) :=
  C4_start_reentrant_noop { initialState with isInitializing := true } rfl

/-- `startClient` never changes the reconnect counter. -/
theorem startClient_reconnectAttempts (s : WAState) :
    (startClient s).1.reconnectAttempts = s.reconnectAttempts := by
  unfold startClient
  split
  · rfl
  · dsimp only
    split <;> rfl

/-- The QR query handler never changes the reconnect counter. -/
theorem getWhatsappQr_reconnectAttempts (now : Int) (s : WAState) :
    ((getWhatsappQr now s).1).reconnectAttempts = s.reconnectAttempts := by
  unfold getWhatsappQr
  split
  · split
    · split <;> rfl
    · rfl
    · rfl
  · split
    · rfl
    · split
      · rfl
      · split
        · exact startClient_reconnectAttempts s
        · rfl

/-- The force-reset handler never changes the reconnect counter. -/
theorem forceQrReset_reconnectAttempts (s : WAState) :
    (forceQrReset s).reconnectAttempts = s.reconnectAttempts := by
  unfold forceQrReset
  dsimp only [cancelWatchdog]
  rw [startClient_reconnectAttempts]

/-- Every single transition preserves the reconnect-attempt cap: only
the disconnected handler increments the counter, and only under its
`reconnectAttempts < MAX_RECONNECT_ATTEMPTS` guard. -/
theorem step_reconnectAttempts_le (s : WAState) (e : Event)
    (h : s.reconnectAttempts ≤ MAX_RECONNECT_ATTEMPTS) :
    (step s e).reconnectAttempts ≤ MAX_RECONNECT_ATTEMPTS := by
  cases e with
  | start => simpa [step, startClient_reconnectAttempts] using h
  | qrEvent payload now => simp [step, onQr, cancelWatchdog]
  | authenticated => simpa [step, onAuthenticated, cancelWatchdog] using h
  | ready info =>
      cases info with
      | some u => simp [step, onReady, cancelWatchdog]
      | none => simpa [step, onReady, cancelWatchdog] using h
  | disconnected reason =>
      simp only [step]
      unfold onDisconnected
      dsimp only [cancelWatchdog]
      split
      · next hc => exact Nat.succ_le_of_lt hc.2
      · exact h
  | authFailure => simpa [step, onAuthFailure, cancelWatchdog] using h
  | errorEvent => simpa [step, onError, cancelWatchdog] using h
  | initializeFailed => simpa [step, onInitializeFailed, cancelWatchdog] using h
  | timeoutFired =>
      simp only [step]
      unfold initTimeoutFire
      split <;> exact h
  | sweep now =>
      simp only [step]
      unfold qrSweep
      split
      · split <;> exact h
      · exact h
  | qrRequest now => simpa [step, getWhatsappQr_reconnectAttempts] using h
  | forceReset => simpa [step, forceQrReset_reconnectAttempts] using h

/-- Running any event sequence preserves the reconnect-attempt cap. -/
theorem run_reconnectAttempts_le (s : WAState) (es : List Event)
    (h : s.reconnectAttempts ≤ MAX_RECONNECT_ATTEMPTS) :
    (run s es).reconnectAttempts ≤ MAX_RECONNECT_ATTEMPTS := by
  induction es generalizing s with
  | nil => exact h
  | cons e es ih => exact ih (step s e) (step_reconnectAttempts_le s e h)

/-- C5 (confirmed): in every reachable state `reconnectAttempts ≤ 5`; a
disconnected event with a non-logout reason and the counter below the
cap increments it and schedules a retry while entering `disconnected`;
the Ready handler resets the counter; and after five consecutive
disconnects following a Ready, the sixth disconnect leaves the state
`disconnected` with no retry scheduled and the counter still at 5. -/
theorem C5_reconnect_attempts_cap :
    (∀ es : List Event, (run initialState es).reconnectAttempts ≤ MAX_RECONNECT_ATTEMPTS) ∧
    (∀ (s : WAState) (reason : String), reason ≠ "NAVIGATION" →
      s.reconnectAttempts < MAX_RECONNECT_ATTEMPTS →
      (onDisconnected reason s).1.reconnectAttempts = s.reconnectAttempts + 1 ∧
      (onDisconnected reason s).1.clientState = ClientState.disconnected ∧
      (onDisconnected reason s).2 = true) ∧
    (∀ (s : WAState) (u : String), (onReady (some u) s).reconnectAttempts = 0) ∧
    (let d : WAState → WAState := fun s => (onDisconnected "CONFLICT" s).1
     let s5 := d (d (d (d (d (run initialState
       [Event.start, Event.qrEvent "Q" 5, Event.ready (some "u")])))))
     s5.reconnectAttempts = MAX_RECONNECT_ATTEMPTS ∧
       (onDisconnected "CONFLICT" s5).1.reconnectAttempts = MAX_RECONNECT_ATTEMPTS ∧
       (onDisconnected "CONFLICT" s5).1.clientState = ClientState.disconnected ∧
       (onDisconnected "CONFLICT" s5).2 = false) := by
  refine ⟨?_, ?_, ?_, ?_⟩
  · intro es
    exact run_reconnectAttempts_le initialState es (by decide)
  · intro s reason h1 h2
    unfold onDisconnected
    dsimp only [cancelWatchdog]
    rw [if_pos ⟨h1, h2⟩]
    exact ⟨rfl, rfl, rfl⟩
  · intro s u
    rfl
  · decide

/-- C5 (witness): the cap holds for the empty trace, and a first
disconnect from the initial state increments the counter to 1 and
schedules a retry. -/
theorem C5_reconnect_attempts_cap_witness :
    (run initialState []).reconnectAttempts ≤ MAX_RECONNECT_ATTEMPTS ∧
    (onDisconnected "CONFLICT" initialState).1.reconnectAttempts = 1 ∧
    (onDisconnected "CONFLICT" initialState).2 = true :=
  ⟨C5_reconnect_attempts_cap.1 [],
   (C5_reconnect_attempts_cap.2.1 initialState "CONFLICT" (by decide) (by decide)).1,
   (C5_reconnect_attempts_cap.2.1 initialState "CONFLICT" (by decide) (by decide)).2.2⟩

/-- C6 (confirmed): the periodic sweep clears a QR payload older than
the validity window; the QR query applies the same lazy check, clearing
the payload in place and answering `expired`; and whenever the query
serves a QR payload, the stored generation time is at most the validity
window old. -/
theorem C6_stale_qr_never_served (s : WAState) (now t : Int) (q : String) :
    (s.qrCodeData = some q → s.qrGeneratedTime = some t → now - t > QR_TIMEOUT →
      (qrSweep now s).qrCodeData = none ∧ (qrSweep now s).qrGeneratedTime = none) ∧
    (s.clientState = ClientState.qr → s.qrCodeData = some q → s.qrGeneratedTime = some t →
      now - t > QR_TIMEOUT →
      getWhatsappQr now s =
        ({ s with qrCodeData := none, qrGeneratedTime := none }, QrApiResponse.expired)) ∧
    (∀ p : String, s.qrGeneratedTime = some t →
      (getWhatsappQr now s).2 = QrApiResponse.qrImage p → now - t ≤ QR_TIMEOUT) := by
  refine ⟨?_, ?_, ?_⟩
  · intro hq ht hgt
    unfold qrSweep
    rw [hq, ht]
    dsimp only
    rw [if_pos hgt]
    exact ⟨rfl, rfl⟩
  · intro hs hq ht hgt
    unfold getWhatsappQr
    rw [hq, ht]
    rw [if_pos (show s.clientState = ClientState.qr ∧ (some q).isSome = true from ⟨hs, rfl⟩)]
    dsimp only
    rw [if_pos hgt]
  · intro p ht hserve
    by_cases hle : now - t ≤ QR_TIMEOUT
    · exact hle
    · exfalso
      have hgt : now - t > QR_TIMEOUT := lt_of_not_ge hle
      unfold getWhatsappQr at hserve
      split at hserve
      · rw [ht] at hserve
        split at hserve
        · next a b hqa htb =>
            obtain rfl : t = b := Option.some.inj htb
            rw [if_pos hgt] at hserve
            simp at hserve
        · next a hqa htn => exact Option.noConfusion htn
        · simp at hserve
      · split at hserve
        · simp at hserve
        · split at hserve
          · simp at hserve
          · split at hserve
            · simp at hserve
            · simp at hserve

/-- C6 (witness): in the QR state generated at time 5, the sweep at
time 70000 clears the payload, the query at time 70000 reports it
expired, and the query at time 100 serves it within the window. -/
theorem C6_stale_qr_never_served_witness :
    (qrSweep 70000 (run initialState [Event.start, Event.qrEvent "QR1" 5])).qrCodeData = none ∧
    (getWhatsappQr 70000 (run initialState [Event.start, Event.qrEvent "QR1" 5])).2 =
      QrApiResponse.expired ∧
    (100 : Int) - 5 ≤ QR_TIMEOUT := by
  refine ⟨?_, ?_, ?_⟩
  · exact ((C6_stale_qr_never_served
      (run initialState [Event.start, Event.qrEvent "QR1" 5]) 70000 5 "QR1").1
      (by decide) (by decide) (by decide)).1
  · have h := (C6_stale_qr_never_served
      (run initialState [Event.start, Event.qrEvent "QR1" 5]) 70000 5 "QR1").2.1
      (by decide) (by decide) (by decide) (by decide)
    exact congrArg Prod.snd h
  · exact (C6_stale_qr_never_served
      (run initialState [Event.start, Event.qrEvent "QR1" 5]) 100 5 "QR1").2.2
      "QR1" (by decide) (by decide)

/-- The batch loop does nothing on an empty list, whatever the
iteration bound. -/
theorem sendBatchesIter_nil (t : String → Except String String) (k n : Nat) :
    sendBatchesIter t k n [] = ([], 0) := by
  cases n <;> rfl

/-- The number of delay waits does not depend on the transporter. -/
theorem sendBatchesIter_delays (t t' : String → Except String String) (k : Nat) :
    ∀ (n : Nat) (l : List EmailData),
      (sendBatchesIter t k n l).2 = (sendBatchesIter t' k n l).2 := by
  intro n
  induction n with
  | zero => intro l; rfl
  | succ m ih =>
      intro l
      cases l with
      | nil => rfl
      | cons e rest =>
          simp only [sendBatchesIter]
          rw [ih]

/-- The outcomes of the batch loop are the concatenated outcomes of its
batch partition. -/
theorem sendBatchesIter_flatten (t : String → Except String String) (k : Nat) :
    ∀ (n : Nat) (l : List EmailData),
      (sendBatchesIter t k n l).1 = ((batchesIter k n l).map (sendEmails t)).flatten := by
  intro n
  induction n with
  | zero => intro l; rfl
  | succ m ih =>
      intro l
      cases l with
      | nil => rfl
      | cons e rest =>
          simp only [sendBatchesIter, batchesIter, List.map_cons, List.flatten_cons]
          rw [ih]

/-- C7 (confirmed): 45 recipients with batch size 20 are partitioned
into exactly the three contiguous batches of sizes 20, 20 and 5, with
exactly 2 inter-batch delays; an empty recipient list yields no
outcomes and no delay; a batch size at least the list length yields the
single batch with no delay; and in general the outcome list is the
concatenation over the batch partition. -/
theorem C7_batch_sizes_and_delays :
    ((batchesOf 20 (List.replicate 45 { email := "r" })).map List.length = [20, 20, 5]) ∧
    (∀ t : String → Except String String,
      (sendEmailsInBatches t 20 (List.replicate 45 { email := "r" })).2 = 2) ∧
    (∀ (t : String → Except String String) (k : Nat),
      sendEmailsInBatches t k [] = ([], 0)) ∧
    (∀ (t : String → Except String String) (k : Nat) (l : List EmailData),
      l.length ≤ k → sendEmailsInBatches t k l = (sendEmails t l, 0)) ∧
    (∀ (t : String → Except String String) (k : Nat) (l : List EmailData),
      (sendEmailsInBatches t k l).1 = ((batchesOf k l).map (sendEmails t)).flatten) := by
  refine ⟨by decide, ?_, ?_, ?_, ?_⟩
  · intro t
    unfold sendEmailsInBatches
    rw [sendBatchesIter_delays t (fun _ => Except.ok "") 20]
    decide
  · intro t k
    rfl
  · intro t k l hlen
    cases l with
    | nil => rfl
    | cons e rest =>
        show sendBatchesIter t k (rest.length + 1) (e :: rest) = (sendEmails t (e :: rest), 0)
        simp only [sendBatchesIter]
        rw [List.take_of_length_le hlen, List.drop_eq_nil_of_le hlen, sendBatchesIter_nil,
          if_neg (Nat.not_lt.mpr hlen)]
        simp
  · intro t k l
    exact sendBatchesIter_flatten t k l.length l

/-- C7 (witness): the single-batch case instantiated at a two-element
list with batch size 20. -/
theorem C7_batch_sizes_and_delays_witness :
    sendEmailsInBatches (fun e => Except.ok e) 20 [{ email := "a" }, { email := "b" }] =
      (sendEmails (fun e => Except.ok e) [{ email := "a" }, { email := "b" }], 0) :=
  C7_batch_sizes_and_delays.2.2.2.1 (fun e => Except.ok e) 20
    [{ email := "a" }, { email := "b" }] (by decide)

/-- The result pushed for one email keeps that email's address. -/
theorem sendOneEmail_email (t : String → Except String String) (e : EmailData) :
    (sendOneEmail t e).email = e.email := by
  unfold sendOneEmail
  split <;> rfl

/-- The `sendEmails` loop appends one result per email, in order. -/
theorem sendEmailsLoop_eq (t : String → Except String String) :
    ∀ (emails : List EmailData) (results : List EmailResult),
      sendEmailsLoop t emails results = results ++ emails.map (sendOneEmail t) := by
  intro emails
  induction emails with
  | nil => intro results; simp [sendEmailsLoop]
  | cons e rest ih =>
      intro results
      rw [sendEmailsLoop, ih]
      simp

/-- The result pushed for one contact keeps that contact. -/
theorem processContact_contact (send : String → Except String Unit) (c : Contact) :
    (processContact send c).1.contact = c := by
  unfold processContact
  split
  · rfl
  · dsimp only
    split <;> rfl

/-- One result is pushed per contact, in order. -/
theorem whatsappSendContacts_contacts (send : String → Except String Unit) :
    ∀ contacts : List Contact,
      (whatsappSendContacts send contacts).1.map ContactResult.contact = contacts := by
  intro contacts
  induction contacts with
  | nil => rfl
  | cons c rest ih =>
      simp only [whatsappSendContacts, List.map_cons]
      rw [processContact_contact, ih]

/-- C8 (confirmed): the email loop produces exactly one outcome per
recipient, in input order, a recipient's outcome is `failed` exactly
when its transporter call failed (the exception is caught, recorded and
the loop continues), and the concrete list [A, B, C] with B failing
yields success, failed, success in order; the WhatsApp per-contact loop
likewise produces one outcome per contact in order. -/
theorem C8_outcome_order_and_failures :
    (∀ (t : String → Except String String) (emails : List EmailData),
      sendEmails t emails = emails.map (sendOneEmail t)) ∧
    (∀ (t : String → Except String String) (emails : List EmailData),
      (sendEmails t emails).length = emails.length ∧
      (sendEmails t emails).map EmailResult.email = emails.map EmailData.email) ∧
    (∀ (t : String → Except String String) (e : EmailData),
      ((sendOneEmail t e).status = EmailStatus.failed ↔ ∃ msg, t e.email = Except.error msg)) ∧
    (sendEmails (fun e => if e = "B" then Except.error "boom" else Except.ok "id1")
        [{ email := "A" }, { email := "B" }, { email := "C" }] =
      [{ email := "A", status := EmailStatus.success, info := "id1" },
       { email := "B", status := EmailStatus.failed, info := "boom" },
       { email := "C", status := EmailStatus.success, info := "id1" }]) ∧
    (∀ (send : String → Except String Unit) (contacts : List Contact),
      (whatsappSendContacts send contacts).1.length = contacts.length ∧
      (whatsappSendContacts send contacts).1.map ContactResult.contact = contacts) := by
  have hmap : ∀ (t : String → Except String String) (emails : List EmailData),
      sendEmails t emails = emails.map (sendOneEmail t) := by
    intro t emails
    unfold sendEmails
    rw [sendEmailsLoop_eq]
    simp
  refine ⟨hmap, ?_, ?_, by decide, ?_⟩
  · intro t emails
    rw [hmap]
    constructor
    · simp
    · simp only [List.map_map]
      exact List.map_congr_left fun e _ => sendOneEmail_email t e
  · intro t e
    unfold sendOneEmail
    cases h : t e.email with
    | ok mid => simp [h]
    | error msg => simp [h]
  · intro send contacts
    refine ⟨?_, whatsappSendContacts_contacts send contacts⟩
    have h := congrArg List.length (whatsappSendContacts_contacts send contacts)
    simpa using h

/-- C9 (confirmed): when the initialization watchdog fires while the
state is still `initializing`, it attempts to destroy the client
object, sets the state to `error` and schedules exactly one restart,
with no condition on `reconnectAttempts`; when the state has already
left `initializing`, it changes nothing and schedules nothing. -/
theorem C9_watchdog_fire (s : WAState) :
    (s.clientState = ClientState.initializing →
      initTimeoutFire s =
        { state := { s with isInitializing := false, clientState := ClientState.error }
          destroyAttempted := s.clientExists
          retryScheduled := true }) ∧
    (s.clientState ≠ ClientState.initializing →
      initTimeoutFire s = { state := s, destroyAttempted := false, retryScheduled := false }) := by
  constructor
  · intro h
    unfold initTimeoutFire
    rw [if_pos h]
  · intro h
    unfold initTimeoutFire
    rw [if_neg h]

/-- C9 (witness): the watchdog fires in an initializing state whose
reconnect counter is already at the cap and still schedules the retry;
in a ready state it does nothing. -/
theorem C9_watchdog_fire_witness :
    initTimeoutFire { initialState with reconnectAttempts := 5 } =
      { state :=
          { initialState with
            reconnectAttempts := 5
            isInitializing := false
            clientState := ClientState.error }
        destroyAttempted := false
        retryScheduled := true } ∧
    initTimeoutFire { initialState with clientState := ClientState.ready } =
      { state := { initialState with clientState := ClientState.ready }
        destroyAttempted := false
        retryScheduled := false } :=
  ⟨(C9_watchdog_fire { initialState with reconnectAttempts := 5 }).1 rfl,
   (C9_watchdog_fire { initialState with clientState := ClientState.ready }).2 (by decide)⟩

/-- A phone that passes the 10-to-15-digit test is nonempty. -/
theorem validPhone_ne_empty (p : String) (h : validPhone p = true) : p ≠ "" := by
  intro he
  subst he
  exact absurd h (by decide)

/-- The address passed to `sendMessage` for one contact: present exactly
when the phone passes validation, and then equal to the normalized chat
address. -/
theorem processContact_sent (send : String → Except String Unit) (c : Contact) :
    (processContact send c).2 =
      if validPhone c.phone then some (chatAddress c.phone) else none := by
  unfold processContact
  split
  · next h =>
      rcases h with h | h
      · rw [if_neg (by simp [h, validPhone])]
      · rw [if_neg (by simp [h])]
  · next h =>
      push_neg at h
      have hv : validPhone c.phone = true := by
        revert h
        cases validPhone c.phone <;> simp
      rw [if_pos hv]
      dsimp only
      split <;> rfl

/-- The addresses passed to `sendMessage` across the loop are exactly
the normalized addresses of the contacts that pass validation. -/
theorem whatsappSendContacts_sent (send : String → Except String Unit) :
    ∀ contacts : List Contact,
      (whatsappSendContacts send contacts).2 =
        (contacts.filter (fun c => validPhone c.phone)).map (fun c => chatAddress c.phone) := by
  intro contacts
  induction contacts with
  | nil => rfl
  | cons c rest ih =>
      simp only [whatsappSendContacts, List.filter_cons]
      rw [processContact_sent]
      by_cases hv : validPhone c.phone
      · simp [hv, ih]
      · simp [hv, ih]

/-- C10 (confirmed): a contact whose phone is empty or fails the
10-to-15-digit test is recorded as failed with error message
`Invalid phone number format` and nothing is passed to `sendMessage`; a
contact with a valid phone is sent to `91<phone>@c.us` unless the phone
already starts with `91`, in which case to `<phone>@c.us`; across the
loop, exactly the valid contacts produce a send, in order. -/
theorem C10_phone_validation (send : String → Except String Unit) (c : Contact)
    (contacts : List Contact) :
    ((c.phone = "" ∨ validPhone c.phone = false) →
      processContact send c =
        ({ contact := c, success := false, error := some "Invalid phone number format" }, none)) ∧
    (validPhone c.phone = true →
      (processContact send c).2 = some (chatAddress c.phone)) ∧
    (chatAddress c.phone =
      if strStartsWith c.phone "91" then c.phone ++ "@c.us" else "91" ++ c.phone ++ "@c.us") ∧
    ((whatsappSendContacts send contacts).2 =
      (contacts.filter (fun c => validPhone c.phone)).map (fun c => chatAddress c.phone)) := by
  refine ⟨?_, ?_, ?_, whatsappSendContacts_sent send contacts⟩
  · intro h
    unfold processContact
    rw [if_pos h]
  · intro hv
    rw [processContact_sent, if_pos hv]
  · unfold chatAddress
    by_cases hs : strStartsWith c.phone "91" = true
    · simp [hs]
    · simp [hs]

/-- C10 (witness): a 3-digit phone is rejected without a send, and a
valid 10-digit phone not starting with 91 is sent to the
`91`-prefixed address. -/
theorem C10_phone_validation_witness :
    processContact (fun _ => Except.ok ()) { name := none, phone := "123" } =
      ({ contact := { name := none, phone := "123" }, success := false,
         error := some "Invalid phone number format" }, none) ∧
    (processContact (fun _ => Except.ok ()) { name := none, phone := "9876543210" }).2 =
      some (chatAddress "9876543210") ∧
    chatAddress "9876543210" = "919876543210@c.us" := by
  refine ⟨?_, ?_, ?_⟩
  · exact (C10_phone_validation (fun _ => Except.ok ()) { name := none, phone := "123" } []).1
      (Or.inr (by decide))
  · exact ((C10_phone_validation (fun _ => Except.ok ())
      { name := none, phone := "9876543210" } []).2.1 (by decide))
  · rw [(C10_phone_validation (fun _ => Except.ok ())
      { name := none, phone := "9876543210" } []).2.2.1]
    decide

end Primecoz
